import Mathlib

/-!
Verification of the dbt-correlator artifact-to-event pipeline
(`src/dbt_correlator/parser.py` and `src/dbt_correlator/emitter.py`).

dbt artifacts are dynamically-typed JSON documents, and the Python code
accesses them with duck-typed dictionary operations (`d.get(k, default)`,
`d[k]`, `refs[0]`, truthiness tests, `s.lower()`, f-string interpolation).
We embed JSON values as the inductive `JVal` and give each Python
primitive an explicit, total Lean counterpart that returns
`Except PyErr _` exactly where the Python operation can raise.
-/

namespace DbtCorrelator

/-- A JSON value as produced by `json.load`: the `Any` in the source's
`dict[str, Any]` annotations.  Objects are association lists of
string keys (JSON object keys are strings; `json.load` keeps the last
duplicate, and the artifacts contain no duplicate keys).  Numbers are
modelled as integers: the pipeline never computes with numeric fields,
it only stores and (in error paths) formats them. -/
inductive JVal where
  | jnull
  | jbool (b : Bool)
  | jnum (n : Int)
  | jstr (s : String)
  | jarr (elems : List JVal)
  | jobj (fields : List (String × JVal))

/-- Python exception families that the duck-typed artifact accesses can
raise.  Only the constructor matters for control flow (`except KeyError`,
`except ValueError` clauses); the string payload mirrors the message. -/
inductive PyErr where
  | attributeError (msg : String)
  | typeError (msg : String)
  | keyError (key : String)
  | valueError (msg : String)
  | indexError (msg : String)

/-- Python truthiness (`bool(v)`) on JSON values: `None`, `False`, `0`,
`""`, `[]` and `\x7b\x7d` are falsy, everything else truthy. -/
def JVal.truthy : JVal → Bool
  | .jnull => false
  | .jbool b => b
  | .jnum n => n != 0
  | .jstr s => s != ""
  | .jarr elems => !elems.isEmpty
  | .jobj fields => !fields.isEmpty

/-- Is this value a JSON object (a Python `dict`)? -/
def JVal.isObj : JVal → Bool
  | .jobj _ => true
  | _ => false

/-- Python `str(v)` used by f-string interpolation.  Faithful for the
scalar values the pipeline actually formats; for containers Python
prints a full `repr`, which we abbreviate since no pipeline decision
ever depends on that text. -/
def JVal.pyStr : JVal → String
  | .jnull => "None"
  | .jbool true => "True"
  | .jbool false => "False"
  | .jnum n => toString n
  | .jstr s => s
  | .jarr _ => "[...]"
  | .jobj _ => "\x7b...\x7d"

/-- Python `v.get(key)` / `v.get(key, default)` (`default` applied by the
caller via `Option.getD`): only `dict` has a `get` attribute, every other
value raises `AttributeError`. -/
def JVal.pyGet : JVal → String → Except PyErr (Option JVal)
  | .jobj fields, key => .ok (fields.lookup key)
  | _, _ => .error (.attributeError "object has no attribute get")

/-- Python `v[key]` with a string key: `KeyError` on a missing dict key,
`TypeError` on any non-dict value (list/str indices must be integers,
scalars are not subscriptable). -/
def JVal.pySubscript : JVal → String → Except PyErr JVal
  | .jobj fields, key =>
    match fields.lookup key with
    | some v => .ok v
    | none => .error (.keyError key)
  | _, _ => .error (.typeError "value is not subscriptable by a string")

/-- Python `v[0]`: first element of a list, first character of a string
(as a 1-character string), `KeyError` on a dict (the integer key `0`
never equals a JSON string key), `TypeError` on scalars. -/
def JVal.pySub0 : JVal → Except PyErr JVal
  | .jarr [] => .error (.indexError "list index out of range")
  | .jarr (v :: _) => .ok v
  | .jstr s =>
    match s.data with
    | [] => .error (.indexError "string index out of range")
    | c :: _ => .ok (.jstr (String.mk [c]))
  | .jobj _ => .error (.keyError "0")
  | _ => .error (.typeError "value is not subscriptable")

/-- Python `for x in v`: list elements, string characters, dict keys;
scalars are not iterable. -/
def JVal.pyIter : JVal → Except PyErr (List JVal)
  | .jarr elems => .ok elems
  | .jstr s => .ok (s.data.map (fun c => .jstr (String.mk [c])))
  | .jobj fields => .ok (fields.map (fun kv => .jstr kv.1))
  | _ => .error (.typeError "value is not iterable")

/-- ASCII lower-casing of one character, matching `str.lower` on the
ASCII range (dbt status strings are ASCII). -/
def pyLowerChar (c : Char) : Char :=
  if c.toNat ≥ 65 ∧ c.toNat ≤ 90 then Char.ofNat (c.toNat + 32) else c

/-- Python `s.lower()` restricted to ASCII case mapping. -/
def pyLower (s : String) : String :=
  String.mk (s.data.map pyLowerChar)

/-- Python `s.split(".")` (explicit separator): splits at every dot and
keeps empty fields, so `"".split(".") == [""]`. -/
def splitOnDot : List Char → List (List Char)
  | [] => [[]]
  | c :: rest =>
    let groups := splitOnDot rest
    if c = '.' then [] :: groups
    else
      match groups with
      | [] => [[c]]
      | g :: gs => (c :: g) :: gs

/-- Python `s.replace("Z", "+00:00")`: every `Z` is expanded. -/
def replaceZ : List Char → List Char
  | [] => []
  | c :: rest =>
    if c = 'Z' then '+' :: '0' :: '0' :: ':' :: '0' :: '0' :: replaceZ rest
    else c :: replaceZ rest

/-- Python `s.split(":", 1)` restricted to the first colon: `none` when
the string has no colon (where tuple unpacking of the 1-element result
raises `ValueError`). -/
def splitFirstColon : List Char → Option (List Char × List Char)
  | [] => none
  | c :: rest =>
    if c = ':' then some ([], rest)
    else
      match splitFirstColon rest with
      | some (a, b) => some (c :: a, b)
      | none => none

/-- String-level wrapper for `splitFirstColon`. -/
def split_colon_1 (s : String) : Option (String × String) :=
  (splitFirstColon s.data).map (fun ab => (String.mk ab.1, String.mk ab.2))

/-!
## parser.py: data model

The dataclasses of `parser.py`.  Field type annotations in the source
(`str`, `float`, `Optional[int]`) are not enforced by Python, and the
parser stores whatever JSON value the artifact held, so artifact-derived
fields are `JVal`.
-/

/-- The `TestResult` dataclass: one entry of the run-results `results` array.
`parse_run_results` fills every field with `dict.get`, so each holds the
raw JSON value (or the documented default). -/
structure TestResult where
  unique_id : JVal
  status : JVal
  execution_time : JVal
  failures : JVal
  message : JVal
  compiled_code : JVal
  thread_id : JVal
  adapter_response : JVal

/-- The `RunResultsMetadata` dataclass.  The `generated_at : datetime` value
is represented by the (Z-normalized) ISO string it was parsed from:
the pipeline only ever calls `isoformat()` on it. -/
structure RunResultsMetadata where
  generated_at : String
  invocation_id : JVal
  dbt_version : JVal
  elapsed_time : JVal

/-- The `RunResults` dataclass. -/
structure RunResults where
  metadata : RunResultsMetadata
  results : List TestResult

/-- The `Manifest` dataclass: `nodes`, `sources` and `metadata` are
`dict[str, Any]` in the source. -/
structure Manifest where
  nodes : List (String × JVal)
  sources : List (String × JVal)
  metadata : List (String × JVal)

/-- The `DatasetInfo` dataclass (namespace is a Lean keyword, hence
`nspace`). -/
structure DatasetInfo where
  nspace : String
  name : String

/-- The `DatasetLocation` dataclass; values come straight out of the model
node's JSON object. -/
structure DatasetLocation where
  database : JVal
  schema : JVal
  table : JVal

/-!
## parser.py: dataset resolution

`extract_dataset_info` and its helpers raise `ValueError`/`KeyError`
with distinct messages at six dedicated `raise` sites; duck-typed
accesses on malformed values raise undedicated exceptions.  We tag each
dedicated site with its own constructor and keep everything else as
`uncaught`. -/

/-- The outcomes of dataset resolution: one constructor per dedicated
`raise` site in `parser.py`, plus `uncaught` for exceptions escaping
from duck-typed accesses (`AttributeError`, `TypeError`, and
`KeyError`/`IndexError` not produced by a dedicated site). -/
inductive ResolveError where
  | unknownNode (testId : String)
  | invalidIdFormat (testId : String)
  | noReference (testId : String)
  | unnamedReference (testId : String)
  | unknownModel (modelId : String) (referencedBy : String)
  | incompleteLocation (modelId : String)
  | uncaught (e : PyErr)

/-- Does resolution end in success or in one of the six dedicated,
attributable errors (as opposed to a generic uncaught exception)? -/
def resolveSpecific : Except ResolveError DatasetInfo → Bool
  | .ok _ => true
  | .error (.uncaught _) => false
  | .error _ => true

/-- Source `_extract_project_name`: `unique_id.split(".")[1]`, with the
`IndexError` converted to the invalid-id-format `ValueError`. -/
def extract_project_name (test_unique_id : String) : Except ResolveError String :=
  match splitOnDot test_unique_id.data with
  | _ :: p :: _ => .ok (String.mk p)
  | _ => .error (.invalidIdFormat test_unique_id)

/-- Source `_extract_model_name`: first reference name of a test node.
`refs = test_node.get("refs", [])`; empty/falsy refs raise the
no-reference `ValueError`; `refs[0].get("name")` being falsy raises the
unnamed-reference `ValueError`.  Returns the raw JSON value (the
source's `cast(str, model_name)` is a no-op). -/
def extract_model_name (test_node : JVal) (test_unique_id : String) :
    Except ResolveError JVal := do
  let refsOpt ← (test_node.pyGet "refs").mapError .uncaught
  let refs := refsOpt.getD (.jarr [])
  if !refs.truthy then
    .error (.noReference test_unique_id)
  else do
    let first_ref ← refs.pySub0.mapError .uncaught
    let nameOpt ← (first_ref.pyGet "name").mapError .uncaught
    let model_name := nameOpt.getD .jnull
    if !model_name.truthy then
      .error (.unnamedReference test_unique_id)
    else
      .ok model_name

/-- The `alias ?? name` table choice inside `_extract_dataset_location`:
`model_node.get("alias") or model_node["name"]` — a truthy alias wins,
otherwise the `name` key is consulted. -/
def aliasOrName (fields : List (String × JVal)) : Option JVal :=
  let aliasVal := (fields.lookup "alias").getD .jnull
  if aliasVal.truthy then some aliasVal else fields.lookup "name"

/-- Source `_extract_dataset_location`: reads `database`, `schema` and
`alias or name` from the model node inside a `try` whose
`except KeyError` raises the incomplete-location error; any other
exception (e.g. `TypeError` on a non-dict node) escapes uncaught. -/
def extract_dataset_location (model_node : JVal) (model_unique_id : String) :
    Except ResolveError DatasetLocation :=
  let body : Except PyErr DatasetLocation := do
    let database ← model_node.pySubscript "database"
    let schemaV ← model_node.pySubscript "schema"
    let aliasOpt ← model_node.pyGet "alias"
    let aliasVal := aliasOpt.getD .jnull
    let table ←
      if aliasVal.truthy then pure aliasVal else model_node.pySubscript "name"
    pure ⟨database, schemaV, table⟩
  match body with
  | .ok loc => .ok loc
  | .error (.keyError _) => .error (.incompleteLocation model_unique_id)
  | .error e => .error (.uncaught e)

/-- Source `extract_dataset_info`: the five-hop resolution of a test node to a
`DatasetInfo`.  Steps: manifest lookup (`KeyError` → unknown node),
project segment, first-reference model name, model lookup (`KeyError` →
unknown model), location extraction, then namespace/name composition
with `adapter_type` defaulting to `"unknown"`. -/
def extract_dataset_info (test_unique_id : String) (manifest : Manifest) :
    Except ResolveError DatasetInfo := do
  let test_node ← match manifest.nodes.lookup test_unique_id with
    | some v => Except.ok v
    | none => Except.error (.unknownNode test_unique_id)
  let project_name ← extract_project_name test_unique_id
  let model_name ← extract_model_name test_node test_unique_id
  let model_unique_id := "model." ++ project_name ++ "." ++ model_name.pyStr
  let model_node ← match manifest.nodes.lookup model_unique_id with
    | some v => Except.ok v
    | none => Except.error (.unknownModel model_unique_id test_unique_id)
  let location ← extract_dataset_location model_node model_unique_id
  let adapter_type := (manifest.metadata.lookup "adapter_type").getD (.jstr "unknown")
  Except.ok ⟨adapter_type.pyStr ++ "://" ++ location.database.pyStr,
             location.schema.pyStr ++ "." ++ location.table.pyStr⟩

/-- Source `map_test_status`: `dbt_status.lower() == "pass"`. -/
def map_test_status (dbt_status : String) : Bool :=
  pyLower dbt_status == "pass"

/-!
## parser.py: parse_run_results

`datetime.fromisoformat` is CPython library code; we model it by the
decidable format check below, restricted to the
`YYYY-MM-DD[sep HH:MM[:SS[.ffffff]]][±HH:MM]` shapes that dbt's
`generated_at` timestamps use, and represent the resulting datetime by
its (already Z-normalized) input string — `isoformat()` on it is the
identity.  It rejects with `ValueError` exactly like CPython does on
malformed input, including the datetime constructor's calendar checks:
year at least 1, month 1–12, and day within the month's length under
the proleptic-Gregorian leap-year rule (so `2024-02-31` and
`2023-02-29` are rejected while `2024-02-29` is accepted). -/

/-- Digits to a number, for range checks of timestamp components. -/
def digitsToNat (cs : List Char) : Nat :=
  cs.foldl (fun a c => a * 10 + (c.toNat - 48)) 0

/-- Time of day `HH:MM[:SS[.ffffff]]` with component range checks. -/
def validTime (cs : List Char) : Bool :=
  match cs with
  | h1 :: h2 :: ':' :: m1 :: m2 :: rest =>
    [h1, h2, m1, m2].all Char.isDigit &&
    digitsToNat [h1, h2] < 24 && digitsToNat [m1, m2] < 60 &&
    (match rest with
     | [] => true
     | ':' :: s1 :: s2 :: rest2 =>
       s1.isDigit && s2.isDigit && digitsToNat [s1, s2] < 60 &&
       (match rest2 with
        | [] => true
        | '.' :: fs => decide (1 ≤ fs.length) && decide (fs.length ≤ 6) && fs.all Char.isDigit
        | _ => false)
     | _ => false)
  | _ => false

/-- Split the time-of-day part from a trailing UTC-offset part. -/
def splitOffset : List Char → List Char × Option (List Char)
  | [] => ([], none)
  | c :: rest =>
    if c = '+' ∨ c = '-' then ([], some rest)
    else
      let (a, o) := splitOffset rest
      (c :: a, o)

/-- Offset `HH:MM` with range checks. -/
def validOffset (cs : List Char) : Bool :=
  match cs with
  | [h1, h2, ':', m1, m2] =>
    [h1, h2, m1, m2].all Char.isDigit &&
    digitsToNat [h1, h2] < 24 && digitsToNat [m1, m2] < 60
  | _ => false

/-- Time-of-day optionally followed by a UTC offset. -/
def validTimeOffset (cs : List Char) : Bool :=
  let (t, off) := splitOffset cs
  validTime t && (match off with
    | none => true
    | some o => validOffset o)

/-- Leap-year rule of the proleptic Gregorian calendar, as used by the
`datetime` constructor. -/
def isLeapYear (y : Nat) : Bool :=
  y % 4 == 0 && (y % 100 != 0 || y % 400 == 0)

/-- Number of days in a month, as validated by the `datetime`
constructor (`day is out of range for month` otherwise). -/
def daysInMonth (y m : Nat) : Nat :=
  if m = 2 then (if isLeapYear y then 29 else 28)
  else if m = 4 ∨ m = 6 ∨ m = 9 ∨ m = 11 then 30
  else 31

/-- The accepted ISO-8601 shapes: `YYYY-MM-DD`, optionally followed by a
`T` or space separator and a time (with optional fraction and offset).
The date components must form a real calendar date: year at least 1
(`MINYEAR`), month 1–12, day 1 to `daysInMonth`. -/
def fromisoformatChars (cs : List Char) : Bool :=
  match cs with
  | y1 :: y2 :: y3 :: y4 :: '-' :: m1 :: m2 :: '-' :: d1 :: d2 :: rest =>
    [y1, y2, y3, y4, m1, m2, d1, d2].all Char.isDigit &&
    1 ≤ digitsToNat [y1, y2, y3, y4] &&
    1 ≤ digitsToNat [m1, m2] && digitsToNat [m1, m2] ≤ 12 &&
    1 ≤ digitsToNat [d1, d2] &&
    digitsToNat [d1, d2] ≤
      daysInMonth (digitsToNat [y1, y2, y3, y4]) (digitsToNat [m1, m2]) &&
    (match rest with
     | [] => true
     | sep :: timecs => (sep = 'T' || sep = ' ') && validTimeOffset timecs)
  | _ => false

/-- CPython `datetime.fromisoformat` as described above: the datetime is
represented by its source string. -/
def fromisoformat (s : String) : Except PyErr String :=
  if fromisoformatChars s.data then .ok s
  else .error (.valueError "Invalid isoformat string")

/-- Failure modes of `parse_run_results`: the two dedicated
`raise KeyError` sites (missing `metadata`, missing metadata field),
plus uncaught exceptions from duck-typed accesses (non-dict metadata or
result entries, non-string or malformed `generated_at`). -/
inductive ParseError where
  | missingMetadata
  | missingMetadataField (field : String)
  | uncaughtP (e : PyErr)

/-- Lift an exception escaping a duck-typed access. -/
def orUncaught : Except PyErr α → Except ParseError α :=
  Except.mapError .uncaughtP

/-- The per-entry body of the results loop of `parse_run_results`:
every field via `result_dict.get`, with defaults `""`, `""`, `0.0` and
`None`.  A non-dict entry raises `AttributeError` (aborting the whole
parse, as in the source). -/
def node_result_of_entry (entry : JVal) : Except PyErr TestResult := do
  let uid ← entry.pyGet "unique_id"
  let status ← entry.pyGet "status"
  let etime ← entry.pyGet "execution_time"
  let failures ← entry.pyGet "failures"
  let message ← entry.pyGet "message"
  let compiled ← entry.pyGet "compiled_code"
  let thread ← entry.pyGet "thread_id"
  let aresp ← entry.pyGet "adapter_response"
  pure ⟨uid.getD (.jstr ""), status.getD (.jstr ""), etime.getD (.jnum 0),
        failures.getD .jnull, message.getD .jnull, compiled.getD .jnull,
        thread.getD .jnull, aresp.getD .jnull⟩

/-- The results loop of `parse_run_results`. -/
def parse_results_list : List JVal → Except PyErr (List TestResult)
  | [] => .ok []
  | e :: es => do
    let t ← node_result_of_entry e
    let ts ← parse_results_list es
    pure (t :: ts)

/-- Source `parse_run_results` on an already JSON-decoded document (the file
reading and JSON decoding of `get_data_from_file` happen before this
logic and are outside the claims).  The two `try/except KeyError`
blocks produce the dedicated missing-field errors; `fromisoformat`
`ValueError`s and attribute errors on malformed values escape
uncaught. -/
def parse_run_results (data : JVal) : Except ParseError RunResults := do
  let metadata_dict ← match data.pySubscript "metadata" with
    | .ok v => Except.ok v
    | .error (.keyError _) => Except.error .missingMetadata
    | .error e => Except.error (.uncaughtP e)
  let gaVal ← match metadata_dict.pySubscript "generated_at" with
    | .ok v => Except.ok v
    | .error (.keyError k) => Except.error (.missingMetadataField k)
    | .error e => Except.error (.uncaughtP e)
  let gaStr ← match gaVal with
    | .jstr s => Except.ok s
    | _ => Except.error (.uncaughtP (.attributeError "object has no attribute replace"))
  let generated_at ← orUncaught (fromisoformat (String.mk (replaceZ gaStr.data)))
  let invocation_id ← match metadata_dict.pySubscript "invocation_id" with
    | .ok v => Except.ok v
    | .error (.keyError k) => Except.error (.missingMetadataField k)
    | .error e => Except.error (.uncaughtP e)
  let dbt_version ← match metadata_dict.pySubscript "dbt_version" with
    | .ok v => Except.ok v
    | .error (.keyError k) => Except.error (.missingMetadataField k)
    | .error e => Except.error (.uncaughtP e)
  let innerDefault ← orUncaught (metadata_dict.pyGet "elapsed_time")
  let outerOpt ← orUncaught (data.pyGet "elapsed_time")
  let elapsed_time := outerOpt.getD (innerDefault.getD (.jnum 0))
  let resultsOpt ← orUncaught (data.pyGet "results")
  let results_data := resultsOpt.getD (.jarr [])
  let entries ← orUncaught results_data.pyIter
  let results ← orUncaught (parse_results_list entries)
  pure ⟨⟨generated_at, invocation_id, dbt_version, elapsed_time⟩, results⟩

/-!
## emitter.py: grouping and event construction

`group_tests_by_dataset` builds an insertion-ordered `dict` from dataset
URN to the per-test dictionaries; we model it as an association list
with in-place append.  Its `try/except (KeyError, ValueError)` around
`extract_dataset_info` skips the offending result; exceptions outside
those two families escape.
-/

/-- The per-test dictionary appended by `group_tests_by_dataset`. -/
structure GroupedTest where
  unique_id : JVal
  status : JVal
  failures : JVal
  message : JVal
  test_name : JVal
  column_name : JVal

/-- Append a test to its dataset group, preserving the `dict` insertion
order of first appearance. -/
def appendToGroup (acc : List (String × List GroupedTest)) (urn : String)
    (t : GroupedTest) : List (String × List GroupedTest) :=
  match acc with
  | [] => [(urn, [t])]
  | (u, ts) :: rest =>
    if u = urn then (u, ts ++ [t]) :: rest
    else (u, ts) :: appendToGroup rest urn t

/-- The test-metadata reads of the loop body:
`test_metadata = test_node.get("test_metadata", \x7b\x7d)`, then `name`
(default `"unknown_test"`), `kwargs` (default `\x7b\x7d`) and
`column_name` out of it.  Returns the `(test_name, column_name)`
pair. -/
def test_meta_of (test_node : JVal) : Except PyErr (JVal × JVal) := do
  let tmOpt ← test_node.pyGet "test_metadata"
  let test_metadata := tmOpt.getD (.jobj [])
  let nameOpt ← test_metadata.pyGet "name"
  let test_name := nameOpt.getD (.jstr "unknown_test")
  let kwOpt ← test_metadata.pyGet "kwargs"
  let test_kwargs := kwOpt.getD (.jobj [])
  let colOpt ← test_kwargs.pyGet "column_name"
  pure (test_name, colOpt.getD .jnull)

/-- One iteration of the loop of `group_tests_by_dataset`: skip when the
node is absent or falsy, read the test metadata, resolve the dataset
(skipping on `KeyError`/`ValueError`), then append.  An unhashable
`unique_id` (list/dict) makes `manifest.nodes.get` raise `TypeError`;
a hashable non-string never equals a JSON key, so `.get` returns
`None` and the result is skipped. -/
def groupOne (manifest : Manifest) (acc : List (String × List GroupedTest))
    (result : TestResult) : Except PyErr (List (String × List GroupedTest)) :=
  match result.unique_id with
  | .jarr _ => .error (.typeError "unhashable type")
  | .jobj _ => .error (.typeError "unhashable type")
  | .jstr uid =>
    match manifest.nodes.lookup uid with
    | none => .ok acc
    | some test_node =>
      if !test_node.truthy then .ok acc
      else
        match test_meta_of test_node with
        | .error e => .error e
        | .ok (test_name, column_name) =>
          match extract_dataset_info uid manifest with
          | .ok dataset_info =>
            .ok (appendToGroup acc (dataset_info.nspace ++ ":" ++ dataset_info.name)
              ⟨result.unique_id, result.status, result.failures, result.message,
               test_name, column_name⟩)
          | .error (.uncaught pe) =>
            match pe with
            | .keyError _ => .ok acc
            | .valueError _ => .ok acc
            | _ => .error pe
          | .error _ => .ok acc
  | _ => .ok acc

/-- The loop of `group_tests_by_dataset`. -/
def groupList (manifest : Manifest) :
    List TestResult → List (String × List GroupedTest) →
    Except PyErr (List (String × List GroupedTest))
  | [], acc => .ok acc
  | r :: rs, acc => do
    let acc' ← groupOne manifest acc r
    groupList manifest rs acc'

/-- Source `group_tests_by_dataset`. -/
def group_tests_by_dataset (run_results : RunResults) (manifest : Manifest) :
    Except PyErr (List (String × List GroupedTest)) :=
  groupList manifest run_results.results []

/-- The OpenLineage `Assertion` of the dataQualityAssertions facet.
`assertion` is the raw `test_name` value when no column is present, or
the formatted `testName(column)` string. -/
structure Assertion where
  assertion : JVal
  success : Bool
  column : JVal

/-- An OpenLineage `InputDataset` restricted to the fields the emitter
sets: `namespace`, `name` and the dataQualityAssertions facet. -/
structure InputDataset where
  nspace : String
  name : String
  assertions : List Assertion

/-- An OpenLineage `RunEvent` restricted to the fields the emitter
sets. -/
structure RunEvent where
  eventType : String
  eventTime : String
  runId : String
  jobNamespace : String
  jobName : String
  inputs : List InputDataset
  outputs : List InputDataset

/-- The assertions loop of `construct_events`: `map_test_status` on the
status (`.lower()` raises `AttributeError` on a non-string status), the
`testName(column)` label when the column is truthy, and the column field
only when truthy. -/
def build_assertions : List GroupedTest → Except PyErr (List Assertion)
  | [] => .ok []
  | t :: ts => do
    let statusStr ← match t.status with
      | .jstr s => Except.ok s
      | _ => Except.error (.attributeError "object has no attribute lower")
    let success := map_test_status statusStr
    let assertion_name : JVal :=
      if t.column_name.truthy then
        .jstr (t.test_name.pyStr ++ "(" ++ t.column_name.pyStr ++ ")")
      else t.test_name
    let column := if t.column_name.truthy then t.column_name else .jnull
    let rest ← build_assertions ts
    pure (⟨assertion_name, success, column⟩ :: rest)

/-- The per-group body of `construct_events`: split the URN at the first
colon (a colon-free URN hits `except ValueError: continue`, returning
`none`), build the assertions, and wrap them in a COMPLETE event whose
time is `metadata.generated_at.isoformat()`. -/
def construct_event_for_group (generated_at nspace job_name run_id : String)
    (dataset_urn : String) (tests : List GroupedTest) :
    Except PyErr (Option RunEvent) :=
  match split_colon_1 dataset_urn with
  | none => .ok none
  | some (namespace_part, name_part) => do
    let assertions ← build_assertions tests
    pure (some ⟨"COMPLETE", generated_at, run_id, nspace, job_name,
                [⟨namespace_part, name_part, assertions⟩], []⟩)

/-- The groups loop of `construct_events`, preserving group order. -/
def construct_events_go (generated_at nspace job_name run_id : String) :
    List (String × List GroupedTest) → Except PyErr (List RunEvent)
  | [] => .ok []
  | (urn, tests) :: rest => do
    let evOpt ← construct_event_for_group generated_at nspace job_name run_id urn tests
    let restEvents ← construct_events_go generated_at nspace job_name run_id rest
    match evOpt with
    | some ev => pure (ev :: restEvents)
    | none => pure restEvents

/-- Source `construct_events`: group the results by dataset, then one COMPLETE
event per dataset group. -/
def construct_events (run_results : RunResults) (manifest : Manifest)
    (nspace job_name run_id : String) : Except PyErr (List RunEvent) := do
  let grouped ← group_tests_by_dataset run_results manifest
  construct_events_go run_results.metadata.generated_at nspace job_name run_id grouped

/-!
## emitter.py: batch emission

`emit_events` serializes the list and performs a single `requests.post`;
everything observable about that call is the backend's answer, which we
pass in as `HttpOutcome`.  Header assembly and `attr.asdict`
serialization are pure and cannot fail. -/

/-- The backend's HTTP response: status code, the value `response.json()`
would return (`none` when the body is not valid JSON, where `.json()`
raises), and `response.text`. -/
structure HttpResponse where
  status_code : Nat
  jsonBody : Option JVal
  text : String

/-- The outcome of the single `requests.post` call. -/
inductive HttpOutcome where
  | response (r : HttpResponse)
  | connectionError (msg : String)
  | timeout (msg : String)

/-- Failure modes of `emit_events`: the dedicated `raise ValueError`
for a rejecting backend (carrying status and body text), the re-raised
connection/timeout errors, and uncaught exceptions from parsing a 207
body. -/
inductive EmitError where
  | backendRejected (status : Nat) (text : String)
  | unreachable (msg : String)
  | timedOut (msg : String)
  | uncaughtE (e : PyErr)

/-- Source `emit_events`: no-op on an empty list (no request is made), then
200 → success, 207 → parse `body["summary"]["successful"]`,
`body["summary"]["received"]` and `body.get("failed_events", [])` for
the warning log and succeed, anything else → backend-rejected. -/
def emit_events (events : List RunEvent) (outcome : HttpOutcome) :
    Except EmitError Unit :=
  if events.isEmpty then .ok ()
  else
    match outcome with
    | .connectionError m => .error (.unreachable m)
    | .timeout m => .error (.timedOut m)
    | .response r =>
      if r.status_code = 200 then .ok ()
      else if r.status_code = 207 then
        match r.jsonBody with
        | none => .error (.uncaughtE (.valueError "response body is not valid json"))
        | some body =>
          match body.pySubscript "summary" with
          | .error e => .error (.uncaughtE e)
          | .ok summary =>
            match summary.pySubscript "successful" with
            | .error e => .error (.uncaughtE e)
            | .ok _ =>
              match summary.pySubscript "received" with
              | .error e => .error (.uncaughtE e)
              | .ok _ =>
                match body.pyGet "failed_events" with
                | .error e => .error (.uncaughtE e)
                | .ok _ => .ok ()
      else .error (.backendRejected r.status_code r.text)

/-!
## Association-list helper lemmas
-/

theorem lookup_cons_self {β : Type} (k : String) (v : β) (l : List (String × β)) :
    ((k, v) :: l).lookup k = some v := by
  simp [List.lookup]

theorem lookup_cons_ne {β : Type} {k k' : String} (v : β) (l : List (String × β))
    (h : k' ≠ k) : ((k, v) :: l).lookup k' = l.lookup k' := by
  simp only [List.lookup]
  rw [beq_eq_false_iff_ne.mpr h]

theorem lookup_mem {β : Type} {l : List (String × β)} {k : String} {v : β}
    (h : l.lookup k = some v) : (k, v) ∈ l := by
  induction l with
  | nil => simp [List.lookup] at h
  | cons kv rest ih =>
    obtain ⟨k0, v0⟩ := kv
    by_cases hk : k = k0
    · subst hk
      rw [lookup_cons_self] at h
      injection h with h
      subst h
      exact List.mem_cons_self _ _
    · rw [lookup_cons_ne _ _ hk] at h
      exact List.mem_cons_of_mem _ (ih h)

/-!
## Claims about the parser
-/

/-- Case-insensitive string equality, the spec's notion for the
status-to-success mapping. -/
def case_insensitive_eq (a b : String) : Bool := pyLower a == pyLower b

/-- Claim C5: map_test_status returns true exactly when its input equals
"pass" case-insensitively, and false for every other string, including
"fail", "error", "skipped", "warn", and any unrecognized status. -/
theorem claim_C5 :
    (∀ s : String, map_test_status s = case_insensitive_eq s "pass") ∧
    map_test_status "pass" = true ∧ map_test_status "PASS" = true ∧
    map_test_status "Pass" = true ∧ map_test_status "fail" = false ∧
    map_test_status "error" = false ∧ map_test_status "skipped" = false ∧
    map_test_status "warn" = false ∧ map_test_status "" = false := by
  refine ⟨fun s => ?_, by decide, by decide, by decide, by decide, by decide,
    by decide, by decide, by decide⟩
  have h : pyLower "pass" = "pass" := by decide
  simp [map_test_status, case_insensitive_eq, h]

/-- Claim C10: in dataset-location extraction the table component is the
model node's alias when present and non-empty (the name field is then
never consulted, so a node with no name still resolves), while an alias
equal to the empty string or null, or an absent alias, falls back to the
name field. -/
theorem claim_C10 (mkvs : List (String × JVal)) (mid : String) (db sch : JVal)
    (hdb : mkvs.lookup "database" = some db)
    (hsch : mkvs.lookup "schema" = some sch) :
    (∀ a : String, a ≠ "" → mkvs.lookup "alias" = some (.jstr a) →
      extract_dataset_location (.jobj mkvs) mid = .ok ⟨db, sch, .jstr a⟩) ∧
    (∀ nm : JVal,
      (mkvs.lookup "alias" = some (.jstr "") ∨ mkvs.lookup "alias" = some .jnull ∨
        mkvs.lookup "alias" = none) →
      mkvs.lookup "name" = some nm →
      extract_dataset_location (.jobj mkvs) mid = .ok ⟨db, sch, nm⟩) := by
  constructor
  · intro a ha hal
    simp [extract_dataset_location, JVal.pySubscript, JVal.pyGet, hdb, hsch, hal,
      JVal.truthy, ha, bind, Except.bind, pure, Except.pure]
  · intro nm hal hnm
    rcases hal with h | h | h <;>
      simp [extract_dataset_location, JVal.pySubscript, JVal.pyGet, hdb, hsch, h, hnm,
        JVal.truthy, bind, Except.bind, pure, Except.pure]

/-- Witness for claim C10: a model node with a non-empty alias and no
name at all resolves to the alias, and one with an empty alias falls
back to the name. -/
theorem claim_C10_witness :
    extract_dataset_location
      (.jobj [("database", .jstr "d"), ("schema", .jstr "s"), ("alias", .jstr "t")])
      "model.p.m" = .ok ⟨.jstr "d", .jstr "s", .jstr "t"⟩ ∧
    extract_dataset_location
      (.jobj [("database", .jstr "d"), ("schema", .jstr "s"), ("alias", .jstr ""),
              ("name", .jstr "n")])
      "model.p.m" = .ok ⟨.jstr "d", .jstr "s", .jstr "n"⟩ :=
  ⟨(claim_C10 [("database", .jstr "d"), ("schema", .jstr "s"), ("alias", .jstr "t")]
      "model.p.m" (.jstr "d") (.jstr "s") rfl rfl).1 "t" (by decide) rfl,
   (claim_C10 [("database", .jstr "d"), ("schema", .jstr "s"), ("alias", .jstr ""),
      ("name", .jstr "n")]
      "model.p.m" (.jstr "d") (.jstr "s") rfl rfl).2 (.jstr "n") (Or.inl rfl) rfl⟩

/-- Claim C9: a test node whose first reference carries the empty string
as its name fails with the same unnamed-reference error as one whose
first reference has no name key at all. -/
theorem claim_C9 (m : Manifest) (uid proj : String)
    (tkvs rkvs : List (String × JVal)) (restRefs : List JVal)
    (hproj : extract_project_name uid = Except.ok proj)
    (hnode : m.nodes.lookup uid = some (.jobj tkvs))
    (hrefs : tkvs.lookup "refs" = some (.jarr (.jobj rkvs :: restRefs)))
    (hname : rkvs.lookup "name" = some (.jstr "") ∨ rkvs.lookup "name" = none) :
    extract_dataset_info uid m = .error (.unnamedReference uid) := by
  rcases hname with h | h <;>
    simp [extract_dataset_info, extract_model_name, JVal.pyGet, JVal.pySub0,
      JVal.truthy, hproj, hnode, hrefs, h, bind, Except.bind, pure, Except.pure,
      Except.mapError, Option.getD]

/-- Witness for claim C9: both the empty-string name and the absent name
produce the unnamed-reference error on a concrete manifest. -/
theorem claim_C9_witness :
    extract_dataset_info "test.p.t.h"
      ⟨[("test.p.t.h", .jobj [("refs", .jarr [.jobj [("name", .jstr "")]])])], [], []⟩ =
      .error (.unnamedReference "test.p.t.h") ∧
    extract_dataset_info "test.p.t.h"
      ⟨[("test.p.t.h", .jobj [("refs", .jarr [.jobj []])])], [], []⟩ =
      .error (.unnamedReference "test.p.t.h") :=
  ⟨claim_C9 ⟨[("test.p.t.h", .jobj [("refs", .jarr [.jobj [("name", .jstr "")]])])], [], []⟩
      "test.p.t.h" "p" _ [("name", .jstr "")] [] rfl rfl rfl (Or.inl rfl),
   claim_C9 ⟨[("test.p.t.h", .jobj [("refs", .jarr [.jobj []])])], [], []⟩
      "test.p.t.h" "p" _ [] [] rfl rfl rfl (Or.inr rfl)⟩

/-- Helper: a successful table choice gives a successful location. -/
theorem location_ok (mkvs : List (String × JVal)) (mid : String) (db sch tbl : JVal)
    (hdb : mkvs.lookup "database" = some db)
    (hsch : mkvs.lookup "schema" = some sch)
    (htbl : aliasOrName mkvs = some tbl) :
    extract_dataset_location (.jobj mkvs) mid = .ok ⟨db, sch, tbl⟩ := by
  unfold aliasOrName at htbl
  by_cases ha : ((mkvs.lookup "alias").getD .jnull).truthy
  · rw [if_pos ha] at htbl
    injection htbl with htbl
    rw [htbl] at ha
    simp [extract_dataset_location, JVal.pySubscript, JVal.pyGet, hdb, hsch, ha, htbl,
      bind, Except.bind, pure, Except.pure]
  · rw [if_neg ha] at htbl
    simp [extract_dataset_location, JVal.pySubscript, JVal.pyGet, hdb, hsch, ha, htbl,
      bind, Except.bind, pure, Except.pure]

/-- Claim C2: a test whose first reference names a model node carrying
database, schema and a table (alias preceding name) resolves to
namespace adapter://database and name schema.table, with the adapter
type read from the manifest metadata and defaulting to unknown. -/
theorem claim_C2 (m : Manifest) (uid proj mn db sch tbl adapter : String)
    (tkvs rkvs mkvs : List (String × JVal)) (restRefs : List JVal)
    (hproj : extract_project_name uid = Except.ok proj)
    (hnode : m.nodes.lookup uid = some (.jobj tkvs))
    (hrefs : tkvs.lookup "refs" = some (.jarr (.jobj rkvs :: restRefs)))
    (hname : rkvs.lookup "name" = some (.jstr mn)) (hmn : mn ≠ "")
    (hmodel : m.nodes.lookup ("model." ++ proj ++ "." ++ mn) = some (.jobj mkvs))
    (hdb : mkvs.lookup "database" = some (.jstr db))
    (hsch : mkvs.lookup "schema" = some (.jstr sch))
    (htbl : aliasOrName mkvs = some (.jstr tbl))
    (hadapter : (m.metadata.lookup "adapter_type").getD (.jstr "unknown") = .jstr adapter) :
    extract_dataset_info uid m =
      .ok ⟨adapter ++ "://" ++ db, sch ++ "." ++ tbl⟩ := by
  have hloc := location_ok mkvs ("model." ++ proj ++ "." ++ mn)
    (.jstr db) (.jstr sch) (.jstr tbl) hdb hsch htbl
  simp [extract_dataset_info, extract_model_name,
    JVal.pyGet, JVal.pySub0, JVal.truthy,
    hproj, hnode, hrefs, hname, hmn, hmodel, hloc, hadapter,
    JVal.pyStr, bind, Except.bind, pure, Except.pure, Except.mapError,
    Option.getD_some, Option.getD_none]

/-- Witness for claim C2: the spec's concrete duckdb example. -/
theorem claim_C2_witness :
    extract_dataset_info "test.jaffle_shop.unique_customers_id.abc"
      ⟨[("test.jaffle_shop.unique_customers_id.abc",
          .jobj [("refs", .jarr [.jobj [("name", .jstr "customers")]])]),
        ("model.jaffle_shop.customers",
          .jobj [("database", .jstr "jaffle_shop"), ("schema", .jstr "main"),
                 ("name", .jstr "customers")])],
       [], [("adapter_type", .jstr "duckdb")]⟩ =
      .ok ⟨"duckdb://jaffle_shop", "main.customers"⟩ :=
  claim_C2
    ⟨[("test.jaffle_shop.unique_customers_id.abc",
        .jobj [("refs", .jarr [.jobj [("name", .jstr "customers")]])]),
      ("model.jaffle_shop.customers",
        .jobj [("database", .jstr "jaffle_shop"), ("schema", .jstr "main"),
               ("name", .jstr "customers")])],
     [], [("adapter_type", .jstr "duckdb")]⟩
    "test.jaffle_shop.unique_customers_id.abc" "jaffle_shop" "customers"
    "jaffle_shop" "main" "customers" "duckdb"
    _ [("name", .jstr "customers")]
    [("database", .jstr "jaffle_shop"), ("schema", .jstr "main"),
     ("name", .jstr "customers")] []
    rfl rfl rfl rfl (by decide) rfl rfl rfl rfl rfl

/-- The two-reference and one-reference test nodes of claim C4, sharing
the remaining fields kvs. -/
def twoRefNode (kvs : List (String × JVal)) : JVal :=
  .jobj (("refs", .jarr [.jobj [("name", .jstr "orders")],
                         .jobj [("name", .jstr "customers")]]) :: kvs)

/-- The one-reference variant. -/
def oneRefNode (kvs : List (String × JVal)) : JVal :=
  .jobj (("refs", .jarr [.jobj [("name", .jstr "orders")]]) :: kvs)

theorem lookup_skip_refs (x : JVal) (kvs : List (String × JVal)) (k : String)
    (h : k ≠ "refs") : (("refs", x) :: kvs).lookup k = kvs.lookup k :=
  lookup_cons_ne x kvs h

/-- Claim C4: resolving a test node with references named orders then
customers yields the same dataset identity as an otherwise identical
test node referencing only orders (first-reference-only policy). -/
theorem claim_C4 (nodes sources metadata : List (String × JVal))
    (uid : String) (kvs : List (String × JVal)) :
    extract_dataset_info uid ⟨(uid, twoRefNode kvs) :: nodes, sources, metadata⟩ =
    extract_dataset_info uid ⟨(uid, oneRefNode kvs) :: nodes, sources, metadata⟩ := by
  have h2 : ((uid, twoRefNode kvs) :: nodes).lookup uid = some (twoRefNode kvs) :=
    lookup_cons_self uid _ nodes
  have h1 : ((uid, oneRefNode kvs) :: nodes).lookup uid = some (oneRefNode kvs) :=
    lookup_cons_self uid _ nodes
  cases hp : extract_project_name uid with
  | error e =>
    simp [extract_dataset_info, hp, h1, h2, bind, Except.bind]
  | ok proj =>
    have hmn2 : extract_model_name (twoRefNode kvs) uid = Except.ok (.jstr "orders") := by
      simp [extract_model_name, twoRefNode, JVal.pyGet, JVal.pySub0, JVal.truthy,
        lookup_cons_self, bind, Except.bind, pure, Except.pure, Except.mapError,
        List.lookup]
    have hmn1 : extract_model_name (oneRefNode kvs) uid = Except.ok (.jstr "orders") := by
      simp [extract_model_name, oneRefNode, JVal.pyGet, JVal.pySub0, JVal.truthy,
        lookup_cons_self, bind, Except.bind, pure, Except.pure, Except.mapError,
        List.lookup]
    by_cases hm : ("model." ++ proj ++ "." ++ "orders") = uid
    · have hloc : ∀ x mid, extract_dataset_location (.jobj (("refs", x) :: kvs)) mid =
          extract_dataset_location (.jobj kvs) mid := by
        intro x mid
        simp [extract_dataset_location, JVal.pySubscript, JVal.pyGet,
          lookup_skip_refs, bind, Except.bind, pure, Except.pure]
      simp [extract_dataset_info, hp, h1, h2, hmn1, hmn2, JVal.pyStr,
        bind, Except.bind, pure, Except.pure]
      rw [hm]
      simp [lookup_cons_self, twoRefNode, oneRefNode, hloc]
    · have hl2 : ((uid, twoRefNode kvs) :: nodes).lookup ("model." ++ proj ++ "." ++ "orders") =
          nodes.lookup ("model." ++ proj ++ "." ++ "orders") :=
        lookup_cons_ne _ nodes hm
      have hl1 : ((uid, oneRefNode kvs) :: nodes).lookup ("model." ++ proj ++ "." ++ "orders") =
          nodes.lookup ("model." ++ proj ++ "." ++ "orders") :=
        lookup_cons_ne _ nodes hm
      simp [extract_dataset_info, hp, h1, h2, hmn1, hmn2, JVal.pyStr,
        hl1, hl2, bind, Except.bind, pure, Except.pure]

/-- Every node value of the manifest is a JSON object (the shape the
manifest schema guarantees). -/
def nodesAllObj (m : Manifest) : Bool :=
  m.nodes.all (fun kv => kv.2.isObj)

/-- The refs value of a node, when present and truthy, is a non-empty
list headed by an object (the shape the manifest schema guarantees). -/
def refsShapeOk (tn : JVal) : Bool :=
  match tn with
  | .jobj tkvs =>
    match tkvs.lookup "refs" with
    | none => true
    | some v =>
      if v.truthy then
        match v with
        | .jarr (.jobj _ :: _) => true
        | _ => false
      else true
  | _ => true

/-- Helper: on an object node with well-shaped refs, model-name
extraction succeeds or fails with one of its two dedicated errors. -/
theorem model_name_spec (tkvs : List (String × JVal)) (uid : String)
    (hrefs : refsShapeOk (.jobj tkvs) = true) :
    (∃ v, extract_model_name (.jobj tkvs) uid = Except.ok v) ∨
    extract_model_name (.jobj tkvs) uid = .error (.noReference uid) ∨
    extract_model_name (.jobj tkvs) uid = .error (.unnamedReference uid) := by
  simp only [refsShapeOk] at hrefs
  cases hr : tkvs.lookup "refs" with
  | none =>
    right; left
    simp [extract_model_name, JVal.pyGet, JVal.truthy, hr, bind, Except.bind,
      Except.mapError, Option.getD_none]
  | some v =>
    rw [hr] at hrefs
    dsimp only at hrefs
    by_cases hv : v.truthy
    · rw [if_pos hv] at hrefs
      match v, hv, hrefs with
      | .jarr (.jobj rkvs :: rest), hv, _ =>
        cases hn : rkvs.lookup "name" with
        | none =>
          right; right
          simp [extract_model_name, JVal.pyGet, JVal.pySub0, JVal.truthy, hr, hv, hn,
            bind, Except.bind, Except.mapError, Option.getD_some, Option.getD_none]
        | some nv =>
          by_cases hnv : nv.truthy
          · left
            refine ⟨nv, ?_⟩
            simp [extract_model_name, JVal.pyGet, JVal.pySub0, hr, hv, hn, hnv,
              bind, Except.bind, pure, Except.pure, Except.mapError, Option.getD_some]
          · right; right
            simp [extract_model_name, JVal.pyGet, JVal.pySub0, hr, hv, hn, hnv,
              bind, Except.bind, Except.mapError, Option.getD_some]
    · right; left
      simp [extract_model_name, JVal.pyGet, hr, hv, bind, Except.bind,
        Except.mapError, Option.getD_some]

/-- Helper: on an object model node, location extraction succeeds or
fails with its dedicated incomplete-location error. -/
theorem location_spec (mkvs : List (String × JVal)) (mid : String) :
    (∃ loc, extract_dataset_location (.jobj mkvs) mid = Except.ok loc) ∨
    extract_dataset_location (.jobj mkvs) mid = .error (.incompleteLocation mid) := by
  cases hdb : mkvs.lookup "database" with
  | none =>
    right
    simp [extract_dataset_location, JVal.pySubscript, hdb, bind, Except.bind]
  | some db =>
    cases hsch : mkvs.lookup "schema" with
    | none =>
      right
      simp [extract_dataset_location, JVal.pySubscript, hdb, hsch, bind, Except.bind]
    | some sch =>
      by_cases ha : ((mkvs.lookup "alias").getD .jnull).truthy
      · left
        exact ⟨⟨db, sch, _⟩, location_ok mkvs mid db sch _ hdb hsch (by
          unfold aliasOrName
          rw [if_pos ha])⟩
      · cases hn : mkvs.lookup "name" with
        | none =>
          right
          simp [extract_dataset_location, JVal.pySubscript, JVal.pyGet,
            hdb, hsch, ha, hn, bind, Except.bind, pure, Except.pure]
        | some nm =>
          left
          exact ⟨⟨db, sch, nm⟩, location_ok mkvs mid db sch nm hdb hsch (by
            unfold aliasOrName
            rw [if_neg ha, hn])⟩

/-- Claim C3 (amended): for a manifest whose node values are all JSON
objects and whose looked-up node has well-shaped refs, resolution of any
node id present in the node map either succeeds or fails with one of the
six dedicated, attributable error kinds, never with a generic uncaught
exception. -/
theorem claim_C3 (m : Manifest) (uid : String) (tn : JVal)
    (hpresent : m.nodes.lookup uid = some tn)
    (hobjs : nodesAllObj m = true)
    (hrefs : refsShapeOk tn = true) :
    resolveSpecific (extract_dataset_info uid m) = true := by
  have hobj : tn.isObj = true := List.all_eq_true.mp hobjs _ (lookup_mem hpresent)
  obtain ⟨tkvs, rfl⟩ : ∃ tkvs, tn = .jobj tkvs := by
    cases tn <;> simp [JVal.isObj] at hobj
    exact ⟨_, rfl⟩
  cases hp : extract_project_name uid with
  | error e =>
    have : e = .invalidIdFormat uid := by
      unfold extract_project_name at hp
      rcases h : splitOnDot uid.data with _ | ⟨a, _ | ⟨b, t⟩⟩ <;> rw [h] at hp <;>
        simp at hp <;> try exact hp.symm
    subst this
    simp [extract_dataset_info, hpresent, hp, resolveSpecific, bind, Except.bind]
  | ok proj =>
    rcases model_name_spec tkvs uid hrefs with ⟨mv, hmn⟩ | hmn | hmn
    · cases hml : m.nodes.lookup ("model." ++ proj ++ "." ++ mv.pyStr) with
      | none =>
        simp [extract_dataset_info, hpresent, hp, hmn, hml, resolveSpecific,
          bind, Except.bind]
      | some mnode =>
        have hmobj : mnode.isObj = true := List.all_eq_true.mp hobjs _ (lookup_mem hml)
        obtain ⟨mkvs, rfl⟩ : ∃ mkvs, mnode = .jobj mkvs := by
          cases mnode <;> simp [JVal.isObj] at hmobj
          exact ⟨_, rfl⟩
        rcases location_spec mkvs ("model." ++ proj ++ "." ++ mv.pyStr)
          with ⟨loc, hloc⟩ | hloc <;>
          simp [extract_dataset_info, hpresent, hp, hmn, hml, hloc, resolveSpecific,
            bind, Except.bind, pure, Except.pure]
    · simp [extract_dataset_info, hpresent, hp, hmn, resolveSpecific, bind, Except.bind]
    · simp [extract_dataset_info, hpresent, hp, hmn, resolveSpecific, bind, Except.bind]

/-- Counterexample to claim C3 as stated: a manifest whose node map maps
a present node id to a non-object value makes extract_dataset_info fail
with a generic uncaught AttributeError rather than one of the six
dedicated error kinds. -/
theorem claim_C3_cex :
    (⟨[("test.p.t.h", JVal.jnum 5)], [], []⟩ : Manifest).nodes.lookup "test.p.t.h" =
      some (.jnum 5) ∧
    extract_dataset_info "test.p.t.h" ⟨[("test.p.t.h", JVal.jnum 5)], [], []⟩ =
      .error (.uncaught (.attributeError "object has no attribute get")) ∧
    resolveSpecific
      (extract_dataset_info "test.p.t.h" ⟨[("test.p.t.h", JVal.jnum 5)], [], []⟩) =
      false :=
  ⟨rfl, rfl, rfl⟩

/-- Witness for the amended claim C3 at a concrete well-shaped
manifest. -/
theorem claim_C3_witness :
    nodesAllObj ⟨[("test.p.t.h", .jobj [("refs", .jarr [.jobj [("name", .jstr "orders")]])]),
        ("model.p.orders", .jobj [("database", .jstr "d"), ("schema", .jstr "s"),
          ("name", .jstr "orders")])], [], []⟩ = true ∧
    refsShapeOk (.jobj [("refs", .jarr [.jobj [("name", .jstr "orders")]])]) = true ∧
    resolveSpecific (extract_dataset_info "test.p.t.h"
      ⟨[("test.p.t.h", .jobj [("refs", .jarr [.jobj [("name", .jstr "orders")]])]),
        ("model.p.orders", .jobj [("database", .jstr "d"), ("schema", .jstr "s"),
          ("name", .jstr "orders")])], [], []⟩) = true :=
  ⟨rfl, rfl,
   claim_C3 ⟨[("test.p.t.h", .jobj [("refs", .jarr [.jobj [("name", .jstr "orders")]])]),
        ("model.p.orders", .jobj [("database", .jstr "d"), ("schema", .jstr "s"),
          ("name", .jstr "orders")])], [], []⟩
     "test.p.t.h" (.jobj [("refs", .jarr [.jobj [("name", .jstr "orders")]])])
     rfl rfl rfl⟩

/-- Helper: a results entry that is a JSON object always yields a
node result. -/
theorem node_result_of_obj (ekvs : List (String × JVal)) :
    ∃ t, node_result_of_entry (.jobj ekvs) = Except.ok t := by
  refine ⟨⟨(ekvs.lookup "unique_id").getD (.jstr ""),
    (ekvs.lookup "status").getD (.jstr ""),
    (ekvs.lookup "execution_time").getD (.jnum 0),
    (ekvs.lookup "failures").getD .jnull,
    (ekvs.lookup "message").getD .jnull,
    (ekvs.lookup "compiled_code").getD .jnull,
    (ekvs.lookup "thread_id").getD .jnull,
    (ekvs.lookup "adapter_response").getD .jnull⟩, ?_⟩
  simp [node_result_of_entry, JVal.pyGet, bind, Except.bind, pure, Except.pure]

/-- Helper: the results loop succeeds on a list of object entries and
produces one node result per entry. -/
theorem parse_results_list_ok (entries : List JVal)
    (h : entries.all JVal.isObj = true) :
    ∃ ts, parse_results_list entries = Except.ok ts ∧ ts.length = entries.length := by
  induction entries with
  | nil => exact ⟨[], rfl, rfl⟩
  | cons e es ih =>
    simp only [List.all_cons, Bool.and_eq_true] at h
    obtain ⟨he, hes⟩ := h
    obtain ⟨ts, hts, hlen⟩ := ih hes
    obtain ⟨ekvs, rfl⟩ : ∃ ekvs, e = JVal.jobj ekvs := by
      cases e <;> simp [JVal.isObj] at he
      exact ⟨_, rfl⟩
    obtain ⟨t, ht⟩ := node_result_of_obj ekvs
    refine ⟨t :: ts, ?_, by simp [hlen]⟩
    simp [parse_results_list, ht, hts, bind, Except.bind, pure, Except.pure]

/-- Claim C6 (amended): a run-results document whose metadata object
carries generated_at (an ISO-8601 timestamp string), invocation_id and
dbt_version, and whose results entries are all JSON objects, parses
successfully into one node result per entry; within an object entry the
missing-field defaults are the empty string for unique_id and status and
0.0 for execution_time.  (A non-object entry aborts the whole parse —
see the counterexample.) -/
theorem claim_C6 (dkvs mkvs : List (String × JVal)) (ga : String)
    (iv dv : JVal) (entries : List JVal)
    (hmeta : dkvs.lookup "metadata" = some (.jobj mkvs))
    (hga : mkvs.lookup "generated_at" = some (.jstr ga))
    (hiso : fromisoformatChars (replaceZ ga.data) = true)
    (hiv : mkvs.lookup "invocation_id" = some iv)
    (hdv : mkvs.lookup "dbt_version" = some dv)
    (hres : dkvs.lookup "results" = some (.jarr entries))
    (hent : entries.all JVal.isObj = true) :
    (∃ rr, parse_run_results (.jobj dkvs) = .ok rr ∧
      rr.results.length = entries.length) ∧
    node_result_of_entry (.jobj []) =
      .ok ⟨.jstr "", .jstr "", .jnum 0, .jnull, .jnull, .jnull, .jnull, .jnull⟩ := by
  obtain ⟨ts, hts, hlen⟩ := parse_results_list_ok entries hent
  constructor
  · refine ⟨⟨⟨String.mk (replaceZ ga.data), iv, dv,
      (dkvs.lookup "elapsed_time").getD
        ((mkvs.lookup "elapsed_time").getD (.jnum 0))⟩, ts⟩, ?_, by simpa using hlen⟩
    simp [parse_run_results, JVal.pySubscript, JVal.pyGet, JVal.pyIter,
      hmeta, hga, hiv, hdv, hres, orUncaught, Except.mapError,
      fromisoformat, hiso, hts, bind, Except.bind, pure, Except.pure]
  · simp [node_result_of_entry, JVal.pyGet, bind, Except.bind, pure, Except.pure,
      List.lookup]

/-- Counterexample to claim C6 as stated: a document whose metadata
carries all three required fields but whose results array contains a
non-object entry makes parse_run_results abort with an uncaught
AttributeError instead of producing one node result per entry. -/
theorem claim_C6_cex :
    (let doc := JVal.jobj
      [("metadata", .jobj [("generated_at", .jstr "2024-01-01T00:00:00Z"),
        ("invocation_id", .jstr "abc"), ("dbt_version", .jstr "1.0.0")]),
       ("results", .jarr [.jnum 7])]
     parse_run_results doc =
       .error (.uncaughtP (.attributeError "object has no attribute get"))) :=
  rfl

/-- Witness for the amended claim C6 on a concrete document with two
object entries (one of them empty, exercising the defaults). -/
theorem claim_C6_witness :
    (∃ rr, parse_run_results (JVal.jobj
      [("metadata", .jobj [("generated_at", .jstr "2024-01-01T00:00:00Z"),
        ("invocation_id", .jstr "abc"), ("dbt_version", .jstr "1.0.0")]),
       ("results", .jarr [.jobj [], .jobj [("status", .jstr "pass")]])]) = .ok rr ∧
      rr.results.length = [JVal.jobj [], JVal.jobj [("status", .jstr "pass")]].length) ∧
    node_result_of_entry (.jobj []) =
      .ok ⟨.jstr "", .jstr "", .jnum 0, .jnull, .jnull, .jnull, .jnull, .jnull⟩ :=
  claim_C6
    [("metadata", .jobj [("generated_at", .jstr "2024-01-01T00:00:00Z"),
        ("invocation_id", .jstr "abc"), ("dbt_version", .jstr "1.0.0")]),
     ("results", .jarr [.jobj [], .jobj [("status", .jstr "pass")]])]
    [("generated_at", .jstr "2024-01-01T00:00:00Z"),
     ("invocation_id", .jstr "abc"), ("dbt_version", .jstr "1.0.0")]
    "2024-01-01T00:00:00Z" (.jstr "abc") (.jstr "1.0.0")
    [.jobj [], .jobj [("status", .jstr "pass")]]
    rfl rfl rfl rfl rfl rfl rfl

/-!
## Claims about the emitter
-/

/-- Claim C7: for a non-empty event list, emission succeeds on a 200
response, succeeds (warning only) on a 207 response whose body carries a
summary with successful/received counts, and fails with the
backend-rejected error carrying status and body for any other status. -/
theorem claim_C7 (events : List RunEvent) (hne : events ≠ []) :
    (∀ r : HttpResponse, r.status_code = 200 →
      emit_events events (.response r) = .ok ()) ∧
    (∀ (r : HttpResponse) (bkvs skvs : List (String × JVal)) (sv rv : JVal),
      r.status_code = 207 → r.jsonBody = some (.jobj bkvs) →
      bkvs.lookup "summary" = some (.jobj skvs) →
      skvs.lookup "successful" = some sv → skvs.lookup "received" = some rv →
      emit_events events (.response r) = .ok ()) ∧
    (∀ r : HttpResponse, r.status_code ≠ 200 → r.status_code ≠ 207 →
      emit_events events (.response r) = .error (.backendRejected r.status_code r.text)) := by
  have hne' : events.isEmpty = false := by
    cases events with
    | nil => exact absurd rfl hne
    | cons e es => rfl
  refine ⟨?_, ?_, ?_⟩
  · intro r h200
    simp [emit_events, hne', h200]
  · intro r bkvs skvs sv rv h207 hbody hsum hsucc hrecv
    have : r.status_code ≠ 200 := by omega
    simp [emit_events, hne', h207, this, hbody, hsum, hsucc, hrecv,
      JVal.pySubscript, JVal.pyGet]
  · intro r h200 h207
    simp [emit_events, hne', h200, h207]

/-- Witness for claim C7 on a one-event list and three concrete backend
responses (200, 207 with a 1-of-2 summary, and 500). -/
theorem claim_C7_witness :
    emit_events [⟨"COMPLETE", "2024-01-01T00:00:00+00:00", "rid", "dbt", "dbt_test", [], []⟩]
      (.response ⟨200, none, ""⟩) = .ok () ∧
    emit_events [⟨"COMPLETE", "2024-01-01T00:00:00+00:00", "rid", "dbt", "dbt_test", [], []⟩]
      (.response ⟨207, some (.jobj [("summary",
        .jobj [("successful", .jnum 1), ("received", .jnum 2)])]), ""⟩) = .ok () ∧
    emit_events [⟨"COMPLETE", "2024-01-01T00:00:00+00:00", "rid", "dbt", "dbt_test", [], []⟩]
      (.response ⟨500, none, "internal error"⟩) =
      .error (.backendRejected 500 "internal error") := by
  have h := claim_C7
    [⟨"COMPLETE", "2024-01-01T00:00:00+00:00", "rid", "dbt", "dbt_test", [], []⟩]
    (by simp)
  exact ⟨h.1 ⟨200, none, ""⟩ rfl,
    h.2.1 ⟨207, some (.jobj [("summary",
        .jobj [("successful", .jnum 1), ("received", .jnum 2)])]), ""⟩
      [("summary", .jobj [("successful", .jnum 1), ("received", .jnum 2)])]
      [("successful", .jnum 1), ("received", .jnum 2)]
      (.jnum 1) (.jnum 2) rfl rfl rfl rfl rfl,
    h.2.2 ⟨500, none, "internal error"⟩ (by decide) (by decide)⟩

/-- Helper: appending a test to a group map keeps every group
non-empty. -/
theorem appendToGroup_nonempty (acc : List (String × List GroupedTest))
    (urn : String) (t : GroupedTest)
    (h : ∀ p ∈ acc, p.2 ≠ []) :
    ∀ p ∈ appendToGroup acc urn t, p.2 ≠ [] := by
  induction acc with
  | nil =>
    intro p hp
    simp [appendToGroup] at hp
    subst hp
    simp
  | cons q rest ih =>
    obtain ⟨u, ts⟩ := q
    intro p hp
    by_cases hu : u = urn
    · simp [appendToGroup, hu] at hp
      rcases hp with hp | hp
      · subst hp
        simp
      · exact h p (List.mem_cons_of_mem _ hp)
    · simp [appendToGroup, hu] at hp
      rcases hp with hp | hp
      · subst hp
        exact h (u, ts) (List.mem_cons_self _ _)
      · exact ih (fun q hq => h q (List.mem_cons_of_mem _ hq)) p hp

/-- Helper: a successful grouping step leaves the accumulator unchanged
or appends exactly one test to one group. -/
theorem groupOne_shape (manifest : Manifest) (acc : List (String × List GroupedTest))
    (r : TestResult) (acc' : List (String × List GroupedTest))
    (h : groupOne manifest acc r = .ok acc') :
    acc' = acc ∨ ∃ urn t, acc' = appendToGroup acc urn t := by
  unfold groupOne at h
  cases hu : r.unique_id with
  | jarr elems => rw [hu] at h; cases h
  | jobj fields => rw [hu] at h; cases h
  | jnull => rw [hu] at h; injection h with h; exact Or.inl h.symm
  | jbool b => rw [hu] at h; injection h with h; exact Or.inl h.symm
  | jnum n => rw [hu] at h; injection h with h; exact Or.inl h.symm
  | jstr uid =>
    rw [hu] at h
    dsimp only at h
    cases hl : manifest.nodes.lookup uid with
    | none => rw [hl] at h; injection h with h; exact Or.inl h.symm
    | some tn =>
      rw [hl] at h
      by_cases ht : tn.truthy
      · simp only [ht, Bool.not_true, Bool.false_eq_true, if_false] at h
        cases hm : test_meta_of tn with
        | error e => rw [hm] at h; cases h
        | ok tc =>
          rw [hm] at h
          obtain ⟨tname, cname⟩ := tc
          cases he : extract_dataset_info uid manifest with
          | ok info =>
            rw [he] at h
            injection h with h
            exact Or.inr ⟨_, _, h.symm⟩
          | error re =>
            rw [he] at h
            cases re with
            | uncaught pe =>
              cases pe with
              | keyError k =>
                injection h with h2
                exact Or.inl h2.symm
              | valueError v =>
                injection h with h2
                exact Or.inl h2.symm
              | attributeError a => exact Except.noConfusion h
              | typeError a => exact Except.noConfusion h
              | indexError a => exact Except.noConfusion h
            | _ => injection h with h; exact Or.inl h.symm
      · simp only [ht, Bool.not_false, if_true] at h
        injection h with h
        exact Or.inl h.symm

/-- Helper: the grouping loop preserves non-emptiness of every group. -/
theorem groupList_nonempty (manifest : Manifest) (rs : List TestResult)
    (acc g : List (String × List GroupedTest))
    (h : groupList manifest rs acc = .ok g)
    (hinv : ∀ p ∈ acc, p.2 ≠ []) : ∀ p ∈ g, p.2 ≠ [] := by
  induction rs generalizing acc with
  | nil =>
    unfold groupList at h
    injection h with h
    subst h
    exact hinv
  | cons r rest ih =>
    unfold groupList at h
    cases h1 : groupOne manifest acc r with
    | error e => rw [h1] at h; cases h
    | ok acc' =>
      rw [h1] at h
      simp only [bind, Except.bind] at h
      rcases groupOne_shape manifest acc r acc' h1 with rfl | ⟨urn, t, rfl⟩
      · exact ih acc' h hinv
      · exact ih _ h (appendToGroup_nonempty acc urn t hinv)

/-- Helper: a successful assertions build yields one assertion per
grouped test. -/
theorem build_assertions_length (ts : List GroupedTest) (as_ : List Assertion)
    (h : build_assertions ts = .ok as_) : as_.length = ts.length := by
  induction ts generalizing as_ with
  | nil =>
    unfold build_assertions at h
    injection h with h
    subst h
    rfl
  | cons t rest ih =>
    unfold build_assertions at h
    cases hs : t.status with
    | jstr s =>
      rw [hs] at h
      simp only [bind, Except.bind, pure, Except.pure] at h
      cases hr : build_assertions rest with
      | error e => rw [hr] at h; cases h
      | ok as2 =>
        rw [hr] at h
        injection h with h
        subst h
        simp [ih as2 hr]
    | _ =>
      rw [hs] at h
      simp only [bind, Except.bind] at h
      cases h

/-- Helper: a constructed per-group event has exactly the group's
assertions on its single input dataset. -/
theorem event_for_group_nonempty (generated_at nspace job_name run_id urn : String)
    (tests : List GroupedTest) (ev : RunEvent)
    (h : construct_event_for_group generated_at nspace job_name run_id urn tests =
      .ok (some ev))
    (hne : tests ≠ []) : ∀ ds ∈ ev.inputs, ds.assertions ≠ [] := by
  unfold construct_event_for_group at h
  cases hsp : split_colon_1 urn with
  | none => rw [hsp] at h; cases h
  | some ab =>
    rw [hsp] at h
    obtain ⟨na, nb⟩ := ab
    simp only [bind, Except.bind, pure, Except.pure] at h
    cases hb : build_assertions tests with
    | error e => rw [hb] at h; cases h
    | ok as_ =>
      rw [hb] at h
      injection h with h
      injection h with h
      subst h
      intro ds hds
      simp at hds
      subst hds
      have := build_assertions_length tests as_ hb
      intro hemp
      dsimp only at hemp
      rw [hemp] at this
      simp at this
      exact hne (List.eq_nil_of_length_eq_zero this.symm)

/-- Helper: every event produced by the groups loop has non-empty
assertions on each of its inputs, provided every group is non-empty. -/
theorem construct_events_go_nonempty (generated_at nspace job_name run_id : String)
    (groups : List (String × List GroupedTest)) (evs : List RunEvent)
    (h : construct_events_go generated_at nspace job_name run_id groups = .ok evs)
    (hinv : ∀ p ∈ groups, p.2 ≠ []) :
    ∀ ev ∈ evs, ∀ ds ∈ ev.inputs, ds.assertions ≠ [] := by
  induction groups generalizing evs with
  | nil =>
    unfold construct_events_go at h
    injection h with h
    subst h
    intro ev hev
    cases hev
  | cons q rest ih =>
    obtain ⟨urn, tests⟩ := q
    unfold construct_events_go at h
    simp only [bind, Except.bind, pure, Except.pure] at h
    cases h1 : construct_event_for_group generated_at nspace job_name run_id urn tests with
    | error e => rw [h1] at h; cases h
    | ok evOpt =>
      rw [h1] at h
      cases h2 : construct_events_go generated_at nspace job_name run_id rest with
      | error e => rw [h2] at h; cases h
      | ok restEvs =>
        rw [h2] at h
        have hrest := ih restEvs h2 (fun p hp => hinv p (List.mem_cons_of_mem _ hp))
        cases evOpt with
        | none =>
          injection h with h
          subst h
          exact hrest
        | some ev =>
          injection h with h
          subst h
          intro ev' hev'
          rcases List.mem_cons.mp hev' with rfl | hmem
          · exact event_for_group_nonempty generated_at nspace job_name run_id urn
              tests ev' h1 (hinv (urn, tests) (List.mem_cons_self _ _))
          · exact hrest ev' hmem

/-- Claim C8: every quality event returned by construct_events carries a
non-empty assertion list in its dataQualityAssertions facet. -/
theorem claim_C8 (run_results : RunResults) (manifest : Manifest)
    (nspace job_name run_id : String) (evs : List RunEvent)
    (h : construct_events run_results manifest nspace job_name run_id = .ok evs) :
    ∀ ev ∈ evs, ∀ ds ∈ ev.inputs, ds.assertions ≠ [] := by
  unfold construct_events at h
  simp only [bind, Except.bind] at h
  cases hg : group_tests_by_dataset run_results manifest with
  | error e => rw [hg] at h; cases h
  | ok groups =>
    rw [hg] at h
    have hinv : ∀ p ∈ groups, p.2 ≠ [] := by
      unfold group_tests_by_dataset at hg
      exact groupList_nonempty manifest run_results.results [] groups hg
        (by intro p hp; cases hp)
    exact construct_events_go_nonempty _ nspace job_name run_id groups evs h hinv

/-- A concrete two-test fixture manifest: one column test with metadata
and one metadata-less test, both on the same model. -/
def mFix : Manifest := ⟨[
  ("test.p.t1.h", .jobj [("refs", .jarr [.jobj [("name", .jstr "orders")]]),
     ("test_metadata", .jobj [("name", .jstr "unique"),
       ("kwargs", .jobj [("column_name", .jstr "id")])])]),
  ("test.p.t2.h", .jobj [("refs", .jarr [.jobj [("name", .jstr "orders")]])]),
  ("model.p.orders", .jobj [("database", .jstr "jaffle_shop"),
     ("schema", .jstr "main"), ("name", .jstr "orders")])],
  [], [("adapter_type", .jstr "duckdb")]⟩

/-- A concrete run-results fixture: the two tests of `mFix`, one passed
and one failed. -/
def rrFix : RunResults := ⟨⟨"2024-01-01T00:00:00+00:00", .jstr "inv", .jstr "1.0", .jnum 0⟩,
  [⟨.jstr "test.p.t1.h", .jstr "pass", .jnum 0, .jnull, .jnull, .jnull, .jnull, .jnull⟩,
   ⟨.jstr "test.p.t2.h", .jstr "fail", .jnum 0, .jnull, .jnull, .jnull, .jnull, .jnull⟩]⟩

/-- The event the pipeline produces from `rrFix`/`mFix`. -/
def evFix : RunEvent := ⟨"COMPLETE", "2024-01-01T00:00:00+00:00", "rid", "dbt", "dbt_test",
  [⟨"duckdb", "//jaffle_shop:main.orders",
    [⟨.jstr "unique(id)", true, .jstr "id"⟩, ⟨.jstr "unknown_test", false, .jnull⟩]⟩], []⟩

/-- Witness for claim C8 on the concrete fixture. -/
theorem claim_C8_witness :
    construct_events rrFix mFix "dbt" "dbt_test" "rid" = .ok [evFix] ∧
    ∀ ev ∈ [evFix], ∀ ds ∈ ev.inputs, ds.assertions ≠ [] :=
  ⟨rfl, claim_C8 rrFix mFix "dbt" "dbt_test" "rid" [evFix] rfl⟩

/-!
## Claim C1: the end-to-end pipeline property
-/

theorem lookup_ne_nil {β : Type} {l : List (String × β)} {k : String} {v : β}
    (h : l.lookup k = some v) : l ≠ [] := by
  intro he
  subst he
  simp [List.lookup] at h

/-- Inversion: a successful model-name extraction forces the test node
to be an object with a truthy refs entry. -/
theorem model_name_ok_inv (tn : JVal) (uid : String) (v : JVal)
    (h : extract_model_name tn uid = Except.ok v) :
    ∃ tkvs rv, tn = .jobj tkvs ∧ tkvs.lookup "refs" = some rv ∧ rv.truthy = true := by
  cases tn with
  | jobj tkvs =>
    refine ⟨tkvs, ?_⟩
    cases hr : tkvs.lookup "refs" with
    | none =>
      exfalso
      rw [extract_model_name] at h
      simp [JVal.pyGet, hr, Except.mapError, bind, Except.bind, JVal.truthy,
        Option.getD_none] at h
    | some rv =>
      refine ⟨rv, rfl, rfl, ?_⟩
      by_cases hv : rv.truthy
      · exact hv
      · exfalso
        rw [extract_model_name] at h
        simp [JVal.pyGet, hr, Except.mapError, bind, Except.bind,
          Option.getD_some, hv] at h
  | jnull =>
    exfalso; rw [extract_model_name] at h
    simp [JVal.pyGet, Except.mapError, bind, Except.bind] at h
  | jbool b =>
    exfalso; rw [extract_model_name] at h
    simp [JVal.pyGet, Except.mapError, bind, Except.bind] at h
  | jnum n =>
    exfalso; rw [extract_model_name] at h
    simp [JVal.pyGet, Except.mapError, bind, Except.bind] at h
  | jstr s =>
    exfalso; rw [extract_model_name] at h
    simp [JVal.pyGet, Except.mapError, bind, Except.bind] at h
  | jarr elems =>
    exfalso; rw [extract_model_name] at h
    simp [JVal.pyGet, Except.mapError, bind, Except.bind] at h

/-- Inversion: a successful resolution forces the test node to be a
non-empty (hence truthy) object present in the node map. -/
theorem extract_ok_node (uid : String) (m : Manifest) (info : DatasetInfo)
    (h : extract_dataset_info uid m = .ok info) :
    ∃ tkvs, m.nodes.lookup uid = some (.jobj tkvs) ∧ tkvs ≠ [] := by
  rw [extract_dataset_info] at h
  cases hl : m.nodes.lookup uid with
  | none =>
    exfalso
    rw [hl] at h
    simp [bind, Except.bind] at h
  | some tn =>
    rw [hl] at h
    simp only [bind, Except.bind] at h
    cases hp : extract_project_name uid with
    | error e => exfalso; rw [hp] at h; simp at h
    | ok proj =>
      rw [hp] at h
      cases hmn : extract_model_name tn uid with
      | error e => exfalso; rw [hmn] at h; simp at h
      | ok mv =>
        obtain ⟨tkvs, rv, rfl, hr, _⟩ := model_name_ok_inv tn uid mv hmn
        exact ⟨tkvs, rfl, lookup_ne_nil hr⟩

/-- The shape condition on a test node's test_metadata that the grouping
loop needs: when present it is an object, whose kwargs, when present, is
also an object. -/
def tm_ok_fields (tkvs : List (String × JVal)) : Bool :=
  match tkvs.lookup "test_metadata" with
  | none => true
  | some (.jobj mkvs) =>
    (match mkvs.lookup "kwargs" with
     | none => true
     | some (.jobj _) => true
     | some _ => false)
  | some _ => false

/-- A well-shaped test node always yields a test-name/column pair. -/
theorem test_meta_of_ok (tkvs : List (String × JVal))
    (h : tm_ok_fields tkvs = true) :
    ∃ tname cname, test_meta_of (.jobj tkvs) = Except.ok (tname, cname) := by
  rw [tm_ok_fields] at h
  cases htm : tkvs.lookup "test_metadata" with
  | none =>
    refine ⟨.jstr "unknown_test", .jnull, ?_⟩
    simp [test_meta_of, JVal.pyGet, htm, bind, Except.bind, pure, Except.pure,
      Option.getD_none, List.lookup]
  | some md =>
    rw [htm] at h
    cases md with
    | jobj mkvs =>
      dsimp only at h
      cases hkw : mkvs.lookup "kwargs" with
      | none =>
        refine ⟨(mkvs.lookup "name").getD (.jstr "unknown_test"), .jnull, ?_⟩
        simp [test_meta_of, JVal.pyGet, htm, hkw, bind, Except.bind, pure, Except.pure,
          Option.getD_none, List.lookup]
      | some kw =>
        rw [hkw] at h
        cases kw with
        | jobj kwkvs =>
          refine ⟨(mkvs.lookup "name").getD (.jstr "unknown_test"),
            (kwkvs.lookup "column_name").getD .jnull, ?_⟩
          simp [test_meta_of, JVal.pyGet, htm, hkw, bind, Except.bind, pure,
            Except.pure, Option.getD_some]
        | jnull => exact absurd h (by simp)
        | jbool b => exact absurd h (by simp)
        | jnum n => exact absurd h (by simp)
        | jstr s => exact absurd h (by simp)
        | jarr elems => exact absurd h (by simp)
    | jnull => exact absurd h (by simp)
    | jbool b => exact absurd h (by simp)
    | jnum n => exact absurd h (by simp)
    | jstr s => exact absurd h (by simp)
    | jarr elems => exact absurd h (by simp)

/-- A result whose node resolves and whose node is a well-shaped,
present test node is appended to its dataset group. -/
theorem groupOne_resolved (m : Manifest) (acc : List (String × List GroupedTest))
    (r : TestResult) (uid : String) (tkvs : List (String × JVal)) (info : DatasetInfo)
    (hu : r.unique_id = .jstr uid)
    (hnode : m.nodes.lookup uid = some (.jobj tkvs))
    (hne : tkvs ≠ [])
    (htm : tm_ok_fields tkvs = true)
    (hres : extract_dataset_info uid m = .ok info) :
    ∃ tname cname,
      groupOne m acc r = .ok (appendToGroup acc (info.nspace ++ ":" ++ info.name)
        ⟨r.unique_id, r.status, r.failures, r.message, tname, cname⟩) := by
  obtain ⟨tname, cname, hmeta⟩ := test_meta_of_ok tkvs htm
  refine ⟨tname, cname, ?_⟩
  have htr : (JVal.jobj tkvs).truthy = true := by
    simp [JVal.truthy, hne]
  rw [groupOne, hu]
  dsimp only
  rw [hnode]
  dsimp only
  rw [htr]
  simp only [Bool.not_true, Bool.false_eq_true, if_false]
  rw [hmeta]
  dsimp only
  rw [hres]

/-- Splitting at the first colon recombines to the original string. -/
theorem splitFirstColon_join : ∀ (cs p q : List Char),
    splitFirstColon cs = some (p, q) → p ++ ':' :: q = cs := by
  intro cs
  induction cs with
  | nil => intro p q h; simp [splitFirstColon] at h
  | cons c rest ih =>
    intro p q h
    by_cases hc : c = ':'
    · subst hc
      simp [splitFirstColon] at h
      obtain ⟨rfl, rfl⟩ := h
      rfl
    · simp only [splitFirstColon, if_neg hc] at h
      cases hr : splitFirstColon rest with
      | none => rw [hr] at h; cases h
      | some ab =>
        obtain ⟨a, b⟩ := ab
        rw [hr] at h
        injection h with h
        rw [Prod.mk.injEq] at h
        obtain ⟨hp, hq⟩ := h
        subst hp
        subst hq
        have hrec := ih a b hr
        simp [← hrec]

/-- A string containing a colon splits. -/
theorem splitFirstColon_of_mem : ∀ cs : List Char, ':' ∈ cs →
    ∃ p q, splitFirstColon cs = some (p, q) := by
  intro cs
  induction cs with
  | nil => intro h; cases h
  | cons c rest ih =>
    intro h
    by_cases hc : c = ':'
    · subst hc
      exact ⟨[], rest, by simp [splitFirstColon]⟩
    · have hm : ':' ∈ rest := by
        rcases List.mem_cons.mp h with h1 | h1
        · exact absurd h1.symm hc
        · exact h1
      obtain ⟨p, q, hpq⟩ := ih hm
      exact ⟨c :: p, q, by simp [splitFirstColon, hc, hpq]⟩

/-- The URN produced by grouping always splits, and the two parts
recombine to the URN. -/
theorem split_colon_1_concat (x y : String) :
    ∃ p q : String, split_colon_1 (x ++ ":" ++ y) = some (p, q) ∧
      p ++ ":" ++ q = x ++ ":" ++ y := by
  have hmem : ':' ∈ (x ++ ":" ++ y).data := by
    simp [String.data_append]
  obtain ⟨p, q, hpq⟩ := splitFirstColon_of_mem _ hmem
  refine ⟨String.mk p, String.mk q, ?_, ?_⟩
  · unfold split_colon_1
    rw [hpq]
    rfl
  · apply String.ext
    have hjoin := splitFirstColon_join _ p q hpq
    rw [← hjoin]
    simp [String.data_append]

/-- The two-element assertions build, with the statuses given as
strings. -/
theorem build_assertions_two (t1 t2 : GroupedTest) (s1 s2 : String)
    (h1 : t1.status = .jstr s1) (h2 : t2.status = .jstr s2) :
    build_assertions [t1, t2] = .ok
      [⟨(if t1.column_name.truthy then
           .jstr (t1.test_name.pyStr ++ "(" ++ t1.column_name.pyStr ++ ")")
         else t1.test_name), map_test_status s1,
        (if t1.column_name.truthy then t1.column_name else .jnull)⟩,
       ⟨(if t2.column_name.truthy then
           .jstr (t2.test_name.pyStr ++ "(" ++ t2.column_name.pyStr ++ ")")
         else t2.test_name), map_test_status s2,
        (if t2.column_name.truthy then t2.column_name else .jnull)⟩] := by
  simp [build_assertions, h1, h2, bind, Except.bind, pure, Except.pure]

/-- Claim C1 (amended): a run summary of exactly two node results with
statuses pass and fail, both resolving to the same dataset identity, and
whose test nodes carry well-shaped (object) test_metadata, produces
exactly one quality event for that dataset, whose two assertions carry
success values true then false in input order. -/
theorem claim_C1 (rr : RunResults) (m : Manifest) (ns jn rid : String)
    (r1 r2 : TestResult) (u1 u2 : String) (info : DatasetInfo)
    (hres : rr.results = [r1, r2])
    (hu1 : r1.unique_id = .jstr u1) (hu2 : r2.unique_id = .jstr u2)
    (hs1 : r1.status = .jstr "pass") (hs2 : r2.status = .jstr "fail")
    (he1 : extract_dataset_info u1 m = .ok info)
    (he2 : extract_dataset_info u2 m = .ok info)
    (htm1 : ∀ tkvs, m.nodes.lookup u1 = some (.jobj tkvs) → tm_ok_fields tkvs = true)
    (htm2 : ∀ tkvs, m.nodes.lookup u2 = some (.jobj tkvs) → tm_ok_fields tkvs = true) :
    ∃ ev ds, construct_events rr m ns jn rid = .ok [ev] ∧
      ev.inputs = [ds] ∧
      ds.nspace ++ ":" ++ ds.name = info.nspace ++ ":" ++ info.name ∧
      ds.assertions.map Assertion.success = [true, false] := by
  obtain ⟨tkvs1, hnode1, hne1⟩ := extract_ok_node u1 m info he1
  obtain ⟨tkvs2, hnode2, hne2⟩ := extract_ok_node u2 m info he2
  obtain ⟨tn1, cn1, hg1⟩ := groupOne_resolved m [] r1 u1 tkvs1 info
    hu1 hnode1 hne1 (htm1 tkvs1 hnode1) he1
  obtain ⟨tn2, cn2, hg2⟩ := groupOne_resolved m
    [(info.nspace ++ ":" ++ info.name,
      [⟨r1.unique_id, r1.status, r1.failures, r1.message, tn1, cn1⟩])]
    r2 u2 tkvs2 info hu2 hnode2 hne2 (htm2 tkvs2 hnode2) he2
  have happ1 : appendToGroup [] (info.nspace ++ ":" ++ info.name)
      ⟨r1.unique_id, r1.status, r1.failures, r1.message, tn1, cn1⟩ =
      [(info.nspace ++ ":" ++ info.name,
        [⟨r1.unique_id, r1.status, r1.failures, r1.message, tn1, cn1⟩])] := rfl
  have happ2 : appendToGroup
      [(info.nspace ++ ":" ++ info.name,
        [⟨r1.unique_id, r1.status, r1.failures, r1.message, tn1, cn1⟩])]
      (info.nspace ++ ":" ++ info.name)
      ⟨r2.unique_id, r2.status, r2.failures, r2.message, tn2, cn2⟩ =
      [(info.nspace ++ ":" ++ info.name,
        [⟨r1.unique_id, r1.status, r1.failures, r1.message, tn1, cn1⟩,
         ⟨r2.unique_id, r2.status, r2.failures, r2.message, tn2, cn2⟩])] := by
    simp [appendToGroup]
  rw [happ1] at hg1
  rw [happ2] at hg2
  have hgroup : group_tests_by_dataset rr m = .ok
      [(info.nspace ++ ":" ++ info.name,
        [⟨r1.unique_id, r1.status, r1.failures, r1.message, tn1, cn1⟩,
         ⟨r2.unique_id, r2.status, r2.failures, r2.message, tn2, cn2⟩])] := by
    rw [group_tests_by_dataset, hres]
    simp only [groupList, hg1, hg2, bind, Except.bind]
  obtain ⟨p, q, hpq, hjoin⟩ := split_colon_1_concat info.nspace info.name
  have hba := build_assertions_two
    ⟨r1.unique_id, r1.status, r1.failures, r1.message, tn1, cn1⟩
    ⟨r2.unique_id, r2.status, r2.failures, r2.message, tn2, cn2⟩
    "pass" "fail" hs1 hs2
  refine ⟨⟨"COMPLETE", rr.metadata.generated_at, rid, ns, jn,
    [⟨p, q,
      [⟨(if cn1.truthy then .jstr (tn1.pyStr ++ "(" ++ cn1.pyStr ++ ")") else tn1),
        map_test_status "pass", (if cn1.truthy then cn1 else .jnull)⟩,
       ⟨(if cn2.truthy then .jstr (tn2.pyStr ++ "(" ++ cn2.pyStr ++ ")") else tn2),
        map_test_status "fail", (if cn2.truthy then cn2 else .jnull)⟩]⟩], []⟩,
    ⟨p, q,
      [⟨(if cn1.truthy then .jstr (tn1.pyStr ++ "(" ++ cn1.pyStr ++ ")") else tn1),
        map_test_status "pass", (if cn1.truthy then cn1 else .jnull)⟩,
       ⟨(if cn2.truthy then .jstr (tn2.pyStr ++ "(" ++ cn2.pyStr ++ ")") else tn2),
        map_test_status "fail", (if cn2.truthy then cn2 else .jnull)⟩]⟩,
    ?_, rfl, hjoin, ?_⟩
  · simp only [construct_events, bind, Except.bind, hgroup,
      construct_events_go, construct_event_for_group, hpq, hba, pure, Except.pure]
  · simp only [List.map]
    decide

/-- The fixture manifest of the claim C1 counterexample: both test
nodes resolve, but the first carries a non-object test_metadata. -/
def mFixBad : Manifest := ⟨[
  ("test.p.t1.h", .jobj [("refs", .jarr [.jobj [("name", .jstr "orders")]]),
     ("test_metadata", .jnum 5)]),
  ("test.p.t2.h", .jobj [("refs", .jarr [.jobj [("name", .jstr "orders")]])]),
  ("model.p.orders", .jobj [("database", .jstr "db"), ("schema", .jstr "s"),
     ("name", .jstr "orders")])], [], []⟩

/-- The run results of the claim C1 counterexample: the two tests, pass
then fail. -/
def rrFixBad : RunResults :=
  ⟨⟨"2024-01-01T00:00:00+00:00", .jstr "inv", .jstr "1.0", .jnum 0⟩,
   [⟨.jstr "test.p.t1.h", .jstr "pass", .jnum 0, .jnull, .jnull, .jnull, .jnull, .jnull⟩,
    ⟨.jstr "test.p.t2.h", .jstr "fail", .jnum 0, .jnull, .jnull, .jnull, .jnull, .jnull⟩]⟩

/-- Counterexample to claim C1 as stated: both node results have
statuses pass and fail and both node ids resolve to the same dataset
identity, yet construct_events raises an uncaught AttributeError (the
first test node's test_metadata is the number 5) instead of returning
one quality event. -/
theorem claim_C1_cex :
    extract_dataset_info "test.p.t1.h" mFixBad =
      .ok ⟨"unknown://db", "s.orders"⟩ ∧
    extract_dataset_info "test.p.t2.h" mFixBad =
      .ok ⟨"unknown://db", "s.orders"⟩ ∧
    construct_events rrFixBad mFixBad "dbt" "dbt_test" "rid" =
      .error (.attributeError "object has no attribute get") :=
  ⟨rfl, rfl, rfl⟩

/-- Witness for the amended claim C1 on the concrete fixture. -/
theorem claim_C1_witness :
    ∃ ev ds, construct_events rrFix mFix "dbt" "dbt_test" "rid" = .ok [ev] ∧
      ev.inputs = [ds] ∧
      ds.nspace ++ ":" ++ ds.name = "duckdb://jaffle_shop" ++ ":" ++ "main.orders" ∧
      ds.assertions.map Assertion.success = [true, false] :=
  claim_C1 rrFix mFix "dbt" "dbt_test" "rid"
    ⟨.jstr "test.p.t1.h", .jstr "pass", .jnum 0, .jnull, .jnull, .jnull, .jnull, .jnull⟩
    ⟨.jstr "test.p.t2.h", .jstr "fail", .jnum 0, .jnull, .jnull, .jnull, .jnull, .jnull⟩
    "test.p.t1.h" "test.p.t2.h" ⟨"duckdb://jaffle_shop", "main.orders"⟩
    rfl rfl rfl rfl rfl rfl rfl
    (by intro tkvs h; cases h; rfl)
    (by intro tkvs h; cases h; rfl)

end DbtCorrelator
